import Mathlib

/-!
Shallow embedding of the notification / broadcast core of the
digitalmemotag repository.

Part 1: email notification dispatch, from src/backend/api/index.py
(`send_email_notification`, `Database.add_message`, configuration at
lines 78-93, and the `/messages` POST route).
-/

/-- The Resend delivery gateway as seen by the code: the configured API key
(`RESEND_API_KEY`, absent or empty means unconfigured, Python truthiness)
and, abstractly, the outcome of `resend.Emails.send` for a given address
(`true` = the call returned normally, `false` = it raised, which
`send_email_notification` catches and converts to a `False` return). -/
structure Gateway where
  resendApiKey : Option String
  sendOk : String → Bool

/-- `if RESEND_API_KEY:` — Python truthiness of the key. -/
def gatewayConfigured (g : Gateway) : Bool :=
  match g.resendApiKey with
  | none => false
  | some s => s ≠ ""

/-- Observable effects of one `send_email_notification` call: its boolean
return value, whether `resend.Emails.send` was actually invoked, and whether
the "Resend API key not configured" warning was printed. -/
structure SendResult where
  ok : Bool
  gatewayCalled : Bool
  warned : Bool

/-- `send_email_notification` (index.py lines 162-286): if no API key is
present it prints a warning and returns `False` without contacting the
gateway; otherwise it calls `resend.Emails.send` and returns `True`, or
`False` if that raised (the `except` branch). -/
def send_email_notification (g : Gateway) (toEmail : String) : SendResult :=
  if gatewayConfigured g then
    { ok := g.sendOk toEmail, gatewayCalled := true, warned := false }
  else
    { ok := false, gatewayCalled := false, warned := true }

/-- Aggregate accounting of the per-recipient notification loop inside
`add_message`: loop iterations (`attempted`, the denominator of the
"Total sent: success_count/len" line), `success_count`, the recipients for
which `send_email_notification` was invoked (`calls`), the recipients for
which the gateway itself was contacted, and how many unconfigured warnings
were printed. -/
structure DispatchOutcome where
  attempted : Nat
  succeeded : Nat
  calls : List String
  gatewayCalls : List String
  warnings : Nat
deriving Repr, DecidableEq

def emptyOutcome : DispatchOutcome :=
  { attempted := 0, succeeded := 0, calls := [], gatewayCalls := [], warnings := 0 }

/-- One iteration of `for user_email in user_emails: if send_email_notification(...):
success_count += 1` (index.py lines 493-499 and 510-516). -/
def stepSend (g : Gateway) (acc : DispatchOutcome) (r : String) : DispatchOutcome :=
  let res := send_email_notification g r
  { attempted := acc.attempted + 1
    succeeded := acc.succeeded + (if res.ok then 1 else 0)
    calls := acc.calls ++ [r]
    gatewayCalls := acc.gatewayCalls ++ (if res.gatewayCalled then [r] else [])
    warnings := acc.warnings + (if res.warned then 1 else 0) }

/-- The whole per-recipient loop of the notification block. -/
def runNotification (g : Gateway) (recips : List String) : DispatchOutcome :=
  recips.foldl (stepSend g) emptyOutcome

/-- Drop leading whitespace characters from a character list. -/
def dropLeadingWS : List Char → List Char
  | [] => []
  | c :: cs => if c.isWhitespace then dropLeadingWS cs else c :: cs

/-- Python `str.strip()` on the character list: drop whitespace from both
ends (whitespace = `Char.isWhitespace`, which covers the characters
occurring in this code base). -/
def pyStripChars (l : List Char) : List Char :=
  dropLeadingWS ((dropLeadingWS l.reverse).reverse)

/-- Python `str.strip()`. -/
def pyStrip (s : String) : String := String.mk (pyStripChars s.data)

/-- Python `str.split(',')` on the character list: split at every comma,
keeping empty fields (so the empty string yields one empty field). -/
def pySplitCommaChars : List Char → List (List Char)
  | [] => [[]]
  | c :: cs =>
    if c = ',' then [] :: pySplitCommaChars cs
    else
      match pySplitCommaChars cs with
      | [] => [[c]]
      | w :: ws => (c :: w) :: ws

/-- Python `str.split(',')`. -/
def pySplitComma (s : String) : List String :=
  (pySplitCommaChars s.data).map String.mk

/-- The literal list in `if user_name in ['管理者', 'admin', 'Admin', 'Administrator']`
(index.py line 487). -/
def ADMIN_USER_ALIASES : List String := ["管理者", "admin", "Admin", "Administrator"]

/-- Python `in` on that list: exact, case-sensitive string membership. -/
def isAdminAuthor (name : String) : Bool :=
  decide (name ∈ ADMIN_USER_ALIASES)

/-- `user_emails = [email.strip() for email in user_email_string.split(',')
if email.strip()] if user_email_string else []` (index.py line 482), where
`user_email_string = item.get('user_email', '')` may be `None` (the item
dict from `get_item_by_id` stores `doc.get('user_email')`). -/
def user_emails_of : Option String → List String
  | none => []
  | some s =>
    if s = "" then []
    else ((pySplitComma s).map pyStrip).filter (fun e => e ≠ "")

/-- The slice of an item document that the notification flow reads. -/
structure Item where
  name : String
  user_email : Option String
deriving Repr, DecidableEq

/-- Recipient selection inside `add_message` (index.py lines 487-510):
admin-classified author → parsed item contacts; anyone else → the
`ADMIN_EMAILS` configuration list. -/
def resolveRecipients (user_name : String) (item : Item) (adminEmails : List String) :
    List String :=
  if isAdminAuthor user_name then user_emails_of item.user_email else adminEmails

/-- `user_name = user_name.strip() if user_name and user_name.strip() else "匿名"`
(index.py line 441). -/
def normalize_user_name (user_name : String) : String :=
  if user_name ≠ "" ∧ pyStrip user_name ≠ "" then pyStrip user_name else "匿名"

/-- The `(success, info)` pair returned by `Database.add_message`, plus the
accounting of the notification loop when it ran (`none` when the
notification block was never entered). -/
structure AddMessageResult where
  success : Bool
  info : String
  notification : Option DispatchOutcome
deriving Repr, DecidableEq

/-- `Database.add_message` (index.py lines 438-524): normalize the author,
trim the body, reject an empty body, look up the owning item (reject when
missing), persist the message, and — only when `send_notification` — run the
per-recipient email loop over the resolved recipients. -/
def add_message (g : Gateway) (adminEmails : List String)
    (lookup : String → Option Item) (item_id message user_name : String)
    (send_notification : Bool) : AddMessageResult :=
  let user_name := normalize_user_name user_name
  let message := pyStrip message
  if message = "" then
    { success := false, info := "Message is empty", notification := none }
  else
    match lookup item_id with
    | none => { success := false, info := "Item not found", notification := none }
    | some item =>
      if send_notification then
        let recips := resolveRecipients user_name item adminEmails
        { success := true, info := "Message posted successfully"
          notification := some (runNotification g recips) }
      else
        { success := true, info := "Message posted successfully", notification := none }

/-- HTTP-level result of the `/messages` POST route. -/
inductive RouteResult where
  | ok (body : String)
  | httpError (code : Nat) (detail : String)
deriving Repr, DecidableEq

/-- `create_message` route (index.py lines 799-808): 200 on success,
`HTTPException(400, error_msg)` otherwise. -/
def create_message_route (g : Gateway) (adminEmails : List String)
    (lookup : String → Option Item) (item_id message user_name : String)
    (notify : Bool) : RouteResult :=
  let r := add_message g adminEmails lookup item_id message user_name notify
  if r.success then RouteResult.ok "Message posted successfully"
  else RouteResult.httpError 400 r.info

/-- Order-preserving deduplication keeping the first occurrence. -/
def dedupFirstAux (seen : List String) : List String → List String
  | [] => []
  | x :: xs =>
    if seen.contains x then dedupFirstAux seen xs
    else x :: dedupFirstAux (x :: seen) xs

def dedupFirst (l : List String) : List String := dedupFirstAux [] l

/-- Modelled from the spec: admin-authored recipient resolution as the spec
words it — "split on comma, trim, drop empties, preserve order, drop exact
duplicates". Used only to compare against the source's `user_emails_of`. -/
def specAdminRecipients (contacts : String) : List String :=
  dedupFirst (((pySplitComma contacts).map pyStrip).filter (fun e => e ≠ ""))

/-- Modelled from the spec, amended: same parsing but with duplicates
preserved (the source performs no deduplication). -/
def specAdminRecipientsNoDedup (contacts : String) : List String :=
  ((pySplitComma contacts).map pyStrip).filter (fun e => e ≠ "")

/-!
Part 2: the live-connection registry and broadcast router, from
src/backend/websocket_manager.py (`ConnectionManager`). Connections are
identified by natural numbers; whether a push to a connection succeeds is
an oracle `live : Conn → Bool` (`connection.send_text` returning normally
versus raising).
-/

abbrev Conn := Nat

/-- The fields of a `new_message` broadcast payload that the router reads
(`message_data.get('item_id')` may be absent). -/
structure MsgData where
  item_id : Option String
  message : String
  user_name : String
deriving Repr, DecidableEq

/-- The `data` half of an event envelope. -/
inductive EventData where
  | message (d : MsgData)
  | statusChange (item_id : String) (status : String) (timestamp : String)
deriving Repr, DecidableEq

/-- The serialized event envelope `{"type": ..., "data": ...}`. -/
structure Event where
  type : String
  data : EventData
deriving Repr, DecidableEq

/-- `ConnectionManager` state: `active_connections` (a dict from item id to
the list of registered connections, modelled as an association list with
unique keys) and `admin_connections`. -/
structure WSState where
  active_connections : List (String × List Conn)
  admin_connections : List Conn
deriving Repr, DecidableEq

/-- Dict lookup: the entry for `item_id`, if present. -/
def lookupConns : List (String × List Conn) → String → Option (List Conn)
  | [], _ => none
  | (k, cs) :: rest, item_id =>
    if k = item_id then some cs else lookupConns rest item_id

/-- The body of `disconnect_from_item` on the dict (lines 26-32): if the
key is present and the connection is in its list, remove the first
occurrence; if the list becomes empty, drop the entry entirely. -/
def removeFromItem : List (String × List Conn) → String → Conn → List (String × List Conn)
  | [], _, _ => []
  | (k, cs) :: rest, item_id, ws =>
    if k = item_id then
      if ws ∈ cs then
        let cs' := cs.erase ws
        if cs' = [] then rest else (k, cs') :: rest
      else (k, cs) :: rest
    else (k, cs) :: removeFromItem rest item_id ws

/-- `disconnect_from_item` (websocket_manager.py lines 26-32). -/
def disconnect_from_item (s : WSState) (ws : Conn) (item_id : String) : WSState :=
  { s with active_connections := removeFromItem s.active_connections item_id ws }

/-- `disconnect_admin` (websocket_manager.py lines 34-37): remove the
connection from the admin list if present. -/
def disconnect_admin (s : WSState) (ws : Conn) : WSState :=
  { s with admin_connections :=
      if ws ∈ s.admin_connections then s.admin_connections.erase ws
      else s.admin_connections }

/-- `send_to_item` (lines 39-50): if the item has registered connections,
push the serialized message to each; pushes that raise mark the connection
disconnected, and after the loop each such connection is unregistered via
`disconnect_from_item`. Returns the new state and the delivery log (which
connection received which envelope, in push order). -/
def send_to_item (live : Conn → Bool) (s : WSState) (msg : Event) (item_id : String) :
    WSState × List (Conn × Event) :=
  match lookupConns s.active_connections item_id with
  | none => (s, [])
  | some conns =>
    let delivered := (conns.filter live).map (fun c => (c, msg))
    let disconnected := conns.filter (fun c => !live c)
    (disconnected.foldl (fun st c => disconnect_from_item st c item_id) s, delivered)

/-- `send_to_admins` (lines 52-62): same loop over the admin list. -/
def send_to_admins (live : Conn → Bool) (s : WSState) (msg : Event) :
    WSState × List (Conn × Event) :=
  let delivered := (s.admin_connections.filter live).map (fun c => (c, msg))
  let disconnected := s.admin_connections.filter (fun c => !live c)
  (disconnected.foldl (fun st c => disconnect_admin st c) s, delivered)

/-- `broadcast_new_message` (lines 64-79): build the
`{"type": "new_message", "data": message_data}` envelope, push it to the
item scope when `message_data.get('item_id')` is truthy, then push the same
envelope to the admin scope. -/
def broadcast_new_message (live : Conn → Bool) (s : WSState) (d : MsgData) :
    WSState × List (Conn × Event) :=
  let ev : Event := { type := "new_message", data := EventData.message d }
  let itemStep :=
    match d.item_id with
    | some iid => if iid ≠ "" then send_to_item live s ev iid else (s, [])
    | none => (s, [])
  let adminStep := send_to_admins live itemStep.1 ev
  (adminStep.1, itemStep.2 ++ adminStep.2)

/-- `broadcast_status_update` (lines 81-96): build the
`{"type": "status_update", ...}` envelope once, push it to the item scope,
then to the admin scope. The timestamp (`datetime.now().isoformat()`) is a
parameter. -/
def broadcast_status_update (live : Conn → Bool) (s : WSState)
    (item_id new_status now : String) : WSState × List (Conn × Event) :=
  let ev : Event := { type := "status_update"
                      data := EventData.statusChange item_id new_status now }
  let itemStep := send_to_item live s ev item_id
  let adminStep := send_to_admins live itemStep.1 ev
  (adminStep.1, itemStep.2 ++ adminStep.2)

/-!
Part 3: item progress updates, from src/backend/api/index.py
(`Database.update_item_progress`, `Database.update_item_status`, the
`/items/{item_id}/progress` PATCH route at lines 744-760 and the
`/public/progress/{item_id}/{progress}` GET route at lines 762-790). The
item store is modelled as a map from item id to the fields these routes
touch.
-/

/-- The slice of an item document the progress routes read and write. -/
structure ItemRec where
  status : String
  progress : Int
deriving Repr, DecidableEq

abbrev ItemStore := String → Option ItemRec

/-- `Database.update_item_progress` (lines 554-577): look the item up; if
absent return `False`, otherwise write the new progress and return `True`. -/
def db_update_item_progress (store : ItemStore) (item_id : String) (p : Int) :
    ItemStore × Bool :=
  match store item_id with
  | none => (store, false)
  | some it =>
    ((fun k => if k = item_id then some { it with progress := p } else store k), true)

/-- `Database.update_item_status` (lines 533-552). -/
def db_update_item_status (store : ItemStore) (item_id : String) (st : String) :
    ItemStore × Bool :=
  match store item_id with
  | none => (store, false)
  | some it =>
    ((fun k => if k = item_id then some { it with status := st } else store k), true)

/-- The `# Auto update status` chain shared verbatim by both progress routes
(lines 750-756 and 774-780). -/
def auto_update_status (store : ItemStore) (item_id : String) (p : Int) : ItemStore :=
  if p = 100 then (db_update_item_status store item_id "Completed").1
  else if p ≥ 75 then (db_update_item_status store item_id "Working").1
  else if p < 25 then (db_update_item_status store item_id "Delayed").1
  else store

/-- `update_item_progress` route (lines 744-760); the `Bool` is success
(`True` response) versus the 404 branch. FastAPI validates `0 ≤ p ≤ 100`
before the handler runs. -/
def update_item_progress_route (store : ItemStore) (item_id : String) (p : Int) :
    ItemStore × Bool :=
  let step := db_update_item_progress store item_id p
  if step.2 then (auto_update_status step.1 item_id p, true) else (step.1, false)

/-- `public_update_progress` route (lines 762-790); the `Nat` is the HTTP
status code (400 for out-of-range progress, 200 on success, 404 when the
item is missing). -/
def public_update_progress_route (store : ItemStore) (item_id : String) (p : Int) :
    ItemStore × Nat :=
  if p < 0 ∨ p > 100 then (store, 400)
  else
    let step := db_update_item_progress store item_id p
    if step.2 then (auto_update_status step.1 item_id p, 200) else (step.1, 404)

/-!
Helper lemmas.
-/

theorem foldl_stepSend_attempted (g : Gateway) (recips : List String) (acc : DispatchOutcome) :
    (recips.foldl (stepSend g) acc).attempted = acc.attempted + recips.length := by
  induction recips generalizing acc with
  | nil => rfl
  | cons r rs ih =>
    rw [List.foldl_cons, ih]
    simp only [stepSend, List.length_cons]
    omega

theorem foldl_stepSend_calls (g : Gateway) (recips : List String) (acc : DispatchOutcome) :
    (recips.foldl (stepSend g) acc).calls = acc.calls ++ recips := by
  induction recips generalizing acc with
  | nil => simp
  | cons r rs ih =>
    rw [List.foldl_cons, ih]
    simp [stepSend]

theorem foldl_stepSend_succeeded (g : Gateway) (recips : List String) (acc : DispatchOutcome) :
    (recips.foldl (stepSend g) acc).succeeded =
      acc.succeeded + (recips.filter (fun r => (send_email_notification g r).ok)).length := by
  induction recips generalizing acc with
  | nil => rfl
  | cons r rs ih =>
    rw [List.foldl_cons, ih]
    by_cases h : (send_email_notification g r).ok
    · simp only [stepSend, List.filter_cons, h, if_true, List.length_cons]
      omega
    · simp only [stepSend, List.filter_cons, h, if_false, Bool.false_eq_true]
      simp only [h] at *
      omega

theorem foldl_stepSend_gatewayCalls (g : Gateway) (recips : List String) (acc : DispatchOutcome) :
    (recips.foldl (stepSend g) acc).gatewayCalls =
      acc.gatewayCalls ++ recips.filter (fun r => (send_email_notification g r).gatewayCalled) := by
  induction recips generalizing acc with
  | nil => simp
  | cons r rs ih =>
    rw [List.foldl_cons, ih]
    by_cases h : (send_email_notification g r).gatewayCalled <;>
      simp [stepSend, List.filter_cons, h]

theorem foldl_stepSend_warnings (g : Gateway) (recips : List String) (acc : DispatchOutcome) :
    (recips.foldl (stepSend g) acc).warnings =
      acc.warnings + (recips.filter (fun r => (send_email_notification g r).warned)).length := by
  induction recips generalizing acc with
  | nil => rfl
  | cons r rs ih =>
    rw [List.foldl_cons, ih]
    by_cases h : (send_email_notification g r).warned
    · simp only [stepSend, List.filter_cons, h, if_true, List.length_cons]
      omega
    · simp [stepSend, List.filter_cons, h]

theorem runNotification_attempted (g : Gateway) (recips : List String) :
    (runNotification g recips).attempted = recips.length := by
  simp [runNotification, foldl_stepSend_attempted, emptyOutcome]

theorem runNotification_calls (g : Gateway) (recips : List String) :
    (runNotification g recips).calls = recips := by
  simp [runNotification, foldl_stepSend_calls, emptyOutcome]

theorem runNotification_succeeded (g : Gateway) (recips : List String) :
    (runNotification g recips).succeeded =
      (recips.filter (fun r => (send_email_notification g r).ok)).length := by
  simp [runNotification, foldl_stepSend_succeeded, emptyOutcome]

theorem runNotification_gatewayCalls (g : Gateway) (recips : List String) :
    (runNotification g recips).gatewayCalls =
      recips.filter (fun r => (send_email_notification g r).gatewayCalled) := by
  simp [runNotification, foldl_stepSend_gatewayCalls, emptyOutcome]

theorem runNotification_warnings (g : Gateway) (recips : List String) :
    (runNotification g recips).warnings =
      (recips.filter (fun r => (send_email_notification g r).warned)).length := by
  simp [runNotification, foldl_stepSend_warnings, emptyOutcome]

theorem length_filter_ok_add_not (p : String → Bool) (l : List String) :
    (l.filter p).length + (l.filter (fun a => !p a)).length = l.length := by
  induction l with
  | nil => rfl
  | cons a t ih => by_cases h : p a <;> simp [List.filter_cons, h] <;> omega

theorem lookupConns_eq_none_of_not_mem_keys (m : List (String × List Conn)) (iid : String)
    (h : iid ∉ m.map Prod.fst) : lookupConns m iid = none := by
  induction m with
  | nil => rfl
  | cons p rest ih =>
    obtain ⟨k, cs⟩ := p
    simp only [List.map_cons, List.mem_cons, not_or] at h
    simp only [lookupConns]
    rw [if_neg (fun he => h.1 he.symm)]
    exact ih h.2

theorem removeFromItem_not_mem (m : List (String × List Conn)) (iid : String) (ws : Conn)
    (h : ws ∉ (lookupConns m iid).getD []) : removeFromItem m iid ws = m := by
  induction m with
  | nil => rfl
  | cons p rest ih =>
    obtain ⟨k, cs⟩ := p
    by_cases hk : k = iid
    · simp only [lookupConns, if_pos hk, Option.getD_some] at h
      simp only [removeFromItem, if_pos hk, if_neg h]
    · simp only [lookupConns, if_neg hk] at h
      simp only [removeFromItem, if_neg hk]
      rw [ih h]

theorem lookupConns_removeFromItem_stay (m : List (String × List Conn)) (iid : String)
    (ws : Conn) (cs : List Conn) (h : lookupConns m iid = some cs) (hmem : ws ∈ cs)
    (hne : cs.erase ws ≠ []) :
    lookupConns (removeFromItem m iid ws) iid = some (cs.erase ws) := by
  induction m with
  | nil => simp [lookupConns] at h
  | cons p rest ih =>
    obtain ⟨k, cs'⟩ := p
    by_cases hk : k = iid
    · simp only [lookupConns, if_pos hk, Option.some.injEq] at h
      subst h
      simp only [removeFromItem, if_pos hk, if_pos hmem, if_neg hne]
      simp [lookupConns, if_pos hk]
    · simp only [lookupConns, if_neg hk] at h
      simp only [removeFromItem, if_neg hk, lookupConns, if_neg hk]
      exact ih h

theorem lookupConns_removeFromItem_drop (m : List (String × List Conn)) (iid : String)
    (ws : Conn) (hkeys : (m.map Prod.fst).Nodup) (h : lookupConns m iid = some [ws]) :
    lookupConns (removeFromItem m iid ws) iid = none := by
  induction m with
  | nil => simp [lookupConns] at h
  | cons p rest ih =>
    obtain ⟨k, cs⟩ := p
    simp only [List.map_cons, List.nodup_cons] at hkeys
    by_cases hk : k = iid
    · simp only [lookupConns, if_pos hk, Option.some.injEq] at h
      subst h
      simp only [removeFromItem, if_pos hk]
      rw [if_pos (List.mem_singleton.mpr rfl)]
      simp only [List.erase_cons_head, if_pos rfl]
      apply lookupConns_eq_none_of_not_mem_keys
      rw [← hk]
      exact hkeys.1
    · simp only [lookupConns, if_neg hk] at h
      simp only [removeFromItem, if_neg hk, lookupConns, if_neg hk]
      exact ih hkeys.2 h

theorem lookupConns_removeFromItem_other (m : List (String × List Conn)) (iid : String)
    (ws : Conn) (iid' : String) (h : iid' ≠ iid) :
    lookupConns (removeFromItem m iid ws) iid' = lookupConns m iid' := by
  induction m with
  | nil => rfl
  | cons p rest ih =>
    obtain ⟨k, cs⟩ := p
    by_cases hk : k = iid
    · subst hk
      have hk' : ¬ k = iid' := fun he => h he.symm
      by_cases hmem : ws ∈ cs
      · by_cases hnil : cs.erase ws = []
        · simp [removeFromItem, hmem, hnil, lookupConns, hk']
        · simp [removeFromItem, hmem, hnil, lookupConns, hk']
      · simp [removeFromItem, hmem, lookupConns, hk']
    · simp only [removeFromItem, if_neg hk, lookupConns]
      by_cases hk' : k = iid' <;> simp [hk', ih]

theorem foldl_disconnect_from_item_admin (l : List Conn) (s : WSState) (iid : String) :
    (l.foldl (fun st c => disconnect_from_item st c iid) s).admin_connections
      = s.admin_connections := by
  induction l generalizing s with
  | nil => rfl
  | cons c cs ih => rw [List.foldl_cons, ih]; rfl

theorem foldl_disconnect_admin_active (l : List Conn) (s : WSState) :
    (l.foldl (fun st c => disconnect_admin st c) s).active_connections
      = s.active_connections := by
  induction l generalizing s with
  | nil => rfl
  | cons c cs ih => rw [List.foldl_cons, ih]; rfl

theorem send_to_item_all_live (live : Conn → Bool) (s : WSState) (msg : Event)
    (iid : String) (h : ∀ c ∈ (lookupConns s.active_connections iid).getD [], live c = true) :
    send_to_item live s msg iid =
      (s, ((lookupConns s.active_connections iid).getD []).map (fun c => (c, msg))) := by
  unfold send_to_item
  cases hl : lookupConns s.active_connections iid with
  | none => simp
  | some conns =>
    rw [hl] at h
    simp only [Option.getD_some] at h
    have h1 : conns.filter live = conns := List.filter_eq_self.mpr h
    have h2 : conns.filter (fun c => !live c) = [] := by
      rw [List.filter_eq_nil_iff]
      intro c hc
      simp [h c hc]
    simp [h1, h2]

theorem send_to_admins_all_live (live : Conn → Bool) (s : WSState) (msg : Event)
    (h : ∀ c ∈ s.admin_connections, live c = true) :
    send_to_admins live s msg = (s, s.admin_connections.map (fun c => (c, msg))) := by
  unfold send_to_admins
  have h1 : s.admin_connections.filter live = s.admin_connections :=
    List.filter_eq_self.mpr h
  have h2 : s.admin_connections.filter (fun c => !live c) = [] := by
    rw [List.filter_eq_nil_iff]
    intro c hc
    simp [h c hc]
  simp [h1, h2]

/-!
Concrete fixtures used by the witnesses.
-/

def gwFailFirst : Gateway := { resendApiKey := some "k", sendOk := fun r => !(r == "a@x.com") }

def gwAllOk : Gateway := { resendApiKey := some "k", sendOk := fun _ => true }

def gwUnconfigured : Gateway := { resendApiKey := none, sendOk := fun _ => true }

def drillItem : Item := { name := "Drill", user_email := some "a@x.com, b@x.com" }

def drillLookup : String → Option Item :=
  fun k => if k = "drill_c" then some drillItem else none

def drillItemNoContacts : Item := { name := "Drill", user_email := none }

def drillLookupNoContacts : String → Option Item :=
  fun k => if k = "drill_c" then some drillItemNoContacts else none

def emptyLookup : String → Option Item := fun _ => none

/-- Shared reduction of `add_message` on the notify path. -/
theorem add_message_notify_eq (g : Gateway) (adminEmails : List String)
    (lookup : String → Option Item) (item_id message user_name : String) (item : Item)
    (hlook : lookup item_id = some item) (hmsg : pyStrip message ≠ "") :
    add_message g adminEmails lookup item_id message user_name true =
      { success := true, info := "Message posted successfully"
        notification := some (runNotification g
          (resolveRecipients (normalize_user_name user_name) item adminEmails)) } := by
  simp only [add_message, hlook, if_neg hmsg, if_true]

/-!
Claim theorems.
-/

/-- Claim C1: for a notify-flagged message whose resolver yields `N ≥ 1`
recipients of which `K` fail (in any positions, since the gateway outcome
oracle is arbitrary), `add_message` invokes a send for every one of the `N`
recipients in order, the outcome has `attempted = N` and
`succeeded = N - K ≥ 0`, and no per-recipient failure aborts the remaining
sends or the enclosing message post. -/
theorem dispatch_partial_failure_accounting
    (g : Gateway) (adminEmails : List String) (lookup : String → Option Item)
    (item_id message user_name : String) (item : Item)
    (recips : List String) (K : Nat)
    (hlook : lookup item_id = some item)
    (hmsg : pyStrip message ≠ "")
    (hrec : recips = resolveRecipients (normalize_user_name user_name) item adminEmails)
    (hK : K = (recips.filter (fun r => !(send_email_notification g r).ok)).length)
    (_hN : 1 ≤ recips.length) :
    (add_message g adminEmails lookup item_id message user_name true).success = true ∧
    (add_message g adminEmails lookup item_id message user_name true).notification
      = some (runNotification g recips) ∧
    (runNotification g recips).calls = recips ∧
    (runNotification g recips).attempted = recips.length ∧
    K ≤ recips.length ∧
    (runNotification g recips).succeeded = recips.length - K := by
  have hadd := add_message_notify_eq g adminEmails lookup item_id message user_name item
    hlook hmsg
  rw [← hrec] at hadd
  have hsplit := length_filter_ok_add_not (fun r => (send_email_notification g r).ok) recips
  refine ⟨by rw [hadd], by rw [hadd], runNotification_calls g recips,
    runNotification_attempted g recips, by omega, ?_⟩
  rw [runNotification_succeeded]
  omega

/-- Witness for the claim C1 theorem: two resolved recipients, the first
send failing (`K = 1`). -/
theorem dispatch_partial_failure_accounting_witness :
    (add_message gwFailFirst ["ops@co.com"] drillLookup "drill_c" "hello" "Administrator"
        true).success = true ∧
    (add_message gwFailFirst ["ops@co.com"] drillLookup "drill_c" "hello" "Administrator"
        true).notification = some (runNotification gwFailFirst ["a@x.com", "b@x.com"]) ∧
    (runNotification gwFailFirst ["a@x.com", "b@x.com"]).calls = ["a@x.com", "b@x.com"] ∧
    (runNotification gwFailFirst ["a@x.com", "b@x.com"]).attempted
      = (["a@x.com", "b@x.com"] : List String).length ∧
    1 ≤ (["a@x.com", "b@x.com"] : List String).length ∧
    (runNotification gwFailFirst ["a@x.com", "b@x.com"]).succeeded
      = (["a@x.com", "b@x.com"] : List String).length - 1 :=
  dispatch_partial_failure_accounting gwFailFirst ["ops@co.com"] drillLookup "drill_c"
    "hello" "Administrator" drillItem ["a@x.com", "b@x.com"] 1
    (by decide) (by decide) (by decide) (by decide) (by decide)

/-- Claim C2 counterexample: the code performs no deduplication of the
parsed contact addresses — duplicated contacts `"a@x.com, a@x.com"` resolve
to two sends to the same address, not one as the claim's
split-trim-dedup description requires. -/
theorem admin_contacts_dedup_counterexample :
    isAdminAuthor "Administrator" = true ∧
    resolveRecipients "Administrator"
        { name := "Drill", user_email := some "a@x.com, a@x.com" } ["ops@co.com"]
      = ["a@x.com", "a@x.com"] ∧
    specAdminRecipients "a@x.com, a@x.com" = ["a@x.com"] ∧
    resolveRecipients "Administrator"
        { name := "Drill", user_email := some "a@x.com, a@x.com" } ["ops@co.com"]
      ≠ specAdminRecipients "a@x.com, a@x.com" := by
  decide

/-- Claim C2 (amended): for admin-classified authors, the attempted sends
are exactly the owning item's contact field split on commas, trimmed, with
empty entries dropped, in source order — with exact duplicates preserved
(the code does not deduplicate). -/
theorem admin_author_sends_to_item_contacts
    (g : Gateway) (adminEmails : List String) (lookup : String → Option Item)
    (item_id message user_name : String) (item : Item) (contacts : String)
    (hlook : lookup item_id = some item)
    (hcontacts : item.user_email = some contacts)
    (hadmin : isAdminAuthor (normalize_user_name user_name) = true)
    (hmsg : pyStrip message ≠ "") :
    (add_message g adminEmails lookup item_id message user_name true).notification
      = some (runNotification g (user_emails_of (some contacts))) ∧
    (runNotification g (user_emails_of (some contacts))).calls
      = specAdminRecipientsNoDedup contacts := by
  have hadd := add_message_notify_eq g adminEmails lookup item_id message user_name item
    hlook hmsg
  have hres : resolveRecipients (normalize_user_name user_name) item adminEmails
      = user_emails_of (some contacts) := by
    simp [resolveRecipients, hadmin, hcontacts]
  constructor
  · rw [hadd, hres]
  · rw [runNotification_calls]
    by_cases hc : contacts = ""
    · subst hc
      decide
    · simp [user_emails_of, hc, specAdminRecipientsNoDedup]

/-- Witness for the amended claim C2 theorem: contacts
`"a@x.com, b@x.com"`, author `"Administrator"` — the two parsed addresses,
in source order. -/
theorem admin_author_sends_to_item_contacts_witness :
    specAdminRecipientsNoDedup "a@x.com, b@x.com" = ["a@x.com", "b@x.com"] ∧
    ((add_message gwAllOk ["ops@co.com"] drillLookup "drill_c" "hello" "Administrator"
        true).notification
      = some (runNotification gwAllOk (user_emails_of (some "a@x.com, b@x.com"))) ∧
    (runNotification gwAllOk (user_emails_of (some "a@x.com, b@x.com"))).calls
      = specAdminRecipientsNoDedup "a@x.com, b@x.com") :=
  ⟨by decide,
   admin_author_sends_to_item_contacts gwAllOk ["ops@co.com"] drillLookup "drill_c"
     "hello" "Administrator" drillItem "a@x.com, b@x.com"
     (by decide) (by decide) (by decide) (by decide)⟩

/-- Claim C3: author classification is exact, case-sensitive membership in
the fixed four-alias list, and every non-admin-classified author's
notification goes to the configured admin address list, verbatim and in
configured order, one send attempted per configured address. -/
theorem nonadmin_author_sends_to_admin_list
    (g : Gateway) (adminEmails : List String) (lookup : String → Option Item)
    (item_id message user_name : String) (item : Item)
    (hlook : lookup item_id = some item)
    (hmsg : pyStrip message ≠ "")
    (hnon : isAdminAuthor (normalize_user_name user_name) = false) :
    (∀ name : String, isAdminAuthor name = true ↔
      (name = "管理者" ∨ name = "admin" ∨ name = "Admin" ∨ name = "Administrator")) ∧
    (add_message g adminEmails lookup item_id message user_name true).notification
      = some (runNotification g adminEmails) ∧
    (runNotification g adminEmails).calls = adminEmails ∧
    (runNotification g adminEmails).attempted = adminEmails.length := by
  have hadd := add_message_notify_eq g adminEmails lookup item_id message user_name item
    hlook hmsg
  have hres : resolveRecipients (normalize_user_name user_name) item adminEmails
      = adminEmails := by
    simp [resolveRecipients, hnon]
  refine ⟨?_, by rw [hadd, hres], runNotification_calls g adminEmails,
    runNotification_attempted g adminEmails⟩
  intro name
  simp [isAdminAuthor, ADMIN_USER_ALIASES]

/-- Witness for the claim C3 theorem: author `"Yuki"`, configured admin
addresses `["ops@co.com"]` — exactly one attempted send, to `ops@co.com`. -/
theorem nonadmin_author_sends_to_admin_list_witness :
    (∀ name : String, isAdminAuthor name = true ↔
      (name = "管理者" ∨ name = "admin" ∨ name = "Admin" ∨ name = "Administrator")) ∧
    (add_message gwAllOk ["ops@co.com"] drillLookup "drill_c" "hello" "Yuki"
        true).notification = some (runNotification gwAllOk ["ops@co.com"]) ∧
    (runNotification gwAllOk ["ops@co.com"]).calls = ["ops@co.com"] ∧
    (runNotification gwAllOk ["ops@co.com"]).attempted
      = (["ops@co.com"] : List String).length :=
  nonadmin_author_sends_to_admin_list gwAllOk ["ops@co.com"] drillLookup "drill_c"
    "hello" "Yuki" drillItem (by decide) (by decide) (by decide)

/-- Claim C4: when the resolved recipient set is empty, the notification
loop performs no send at all — no `send_email_notification` call and no
gateway call — the outcome is `attempted = 0, succeeded = 0`, and the
enclosing message post still succeeds at the HTTP level. -/
theorem empty_recipients_zero_outcome
    (g : Gateway) (adminEmails : List String) (lookup : String → Option Item)
    (item_id message user_name : String) (item : Item)
    (hlook : lookup item_id = some item)
    (hmsg : pyStrip message ≠ "")
    (hempty : resolveRecipients (normalize_user_name user_name) item adminEmails = []) :
    add_message g adminEmails lookup item_id message user_name true =
      { success := true, info := "Message posted successfully"
        notification := some emptyOutcome } ∧
    emptyOutcome.attempted = 0 ∧
    emptyOutcome.succeeded = 0 ∧
    emptyOutcome.calls = [] ∧
    emptyOutcome.gatewayCalls = [] ∧
    create_message_route g adminEmails lookup item_id message user_name true
      = RouteResult.ok "Message posted successfully" := by
  have hadd := add_message_notify_eq g adminEmails lookup item_id message user_name item
    hlook hmsg
  rw [hempty] at hadd
  have hrn : runNotification g [] = emptyOutcome := rfl
  rw [hrn] at hadd
  refine ⟨hadd, rfl, rfl, rfl, rfl, ?_⟩
  simp [create_message_route, hadd]

/-- Witness for the claim C4 theorem: an admin-authored notify-flagged
message on an item whose contact field is absent. -/
theorem empty_recipients_zero_outcome_witness :
    add_message gwAllOk ["ops@co.com"] drillLookupNoContacts "drill_c" "hello"
        "Administrator" true =
      { success := true, info := "Message posted successfully"
        notification := some emptyOutcome } ∧
    emptyOutcome.attempted = 0 ∧
    emptyOutcome.succeeded = 0 ∧
    emptyOutcome.calls = [] ∧
    emptyOutcome.gatewayCalls = [] ∧
    create_message_route gwAllOk ["ops@co.com"] drillLookupNoContacts "drill_c" "hello"
        "Administrator" true = RouteResult.ok "Message posted successfully" :=
  empty_recipients_zero_outcome gwAllOk ["ops@co.com"] drillLookupNoContacts "drill_c"
    "hello" "Administrator" drillItemNoContacts (by decide) (by decide) (by decide)

/-- Claim C5 counterexample: with the gateway unconfigured and two resolved
recipients, the dispatch does not short-circuit to a zero-attempt outcome
logged once — the loop still iterates both recipients (`attempted = 2`) and
the unconfigured warning is printed once per recipient (twice), though the
gateway itself is indeed never contacted. -/
theorem unconfigured_gateway_counterexample :
    (runNotification gwUnconfigured ["a@x.com", "b@x.com"]).attempted = 2 ∧
    (runNotification gwUnconfigured ["a@x.com", "b@x.com"]).warnings = 2 ∧
    (runNotification gwUnconfigured ["a@x.com", "b@x.com"]).gatewayCalls = [] ∧
    ¬ ((runNotification gwUnconfigured ["a@x.com", "b@x.com"]).attempted = 0 ∧
       (runNotification gwUnconfigured ["a@x.com", "b@x.com"]).warnings ≤ 1) := by
  decide

/-- Claim C5 (amended): when the gateway is not configured, no dispatch ever
contacts the gateway and no exception is raised, but the check happens
inside each per-recipient send rather than once per dispatch: the loop
still iterates every resolved recipient, yielding `attempted = N`,
`succeeded = 0`, and the unconfigured condition logged once per recipient. -/
theorem unconfigured_gateway_dispatch
    (g : Gateway) (recips : List String)
    (h : gatewayConfigured g = false) :
    (runNotification g recips).attempted = recips.length ∧
    (runNotification g recips).succeeded = 0 ∧
    (runNotification g recips).gatewayCalls = [] ∧
    (runNotification g recips).warnings = recips.length ∧
    (runNotification g recips).calls = recips := by
  have hs : ∀ r, send_email_notification g r =
      { ok := false, gatewayCalled := false, warned := true } := by
    intro r
    simp [send_email_notification, h]
  refine ⟨runNotification_attempted g recips, ?_, ?_, ?_, runNotification_calls g recips⟩
  · rw [runNotification_succeeded]
    simp [hs]
  · rw [runNotification_gatewayCalls]
    simp [hs]
  · rw [runNotification_warnings]
    simp [hs]

/-- Witness for the amended claim C5 theorem: no API key, two recipients. -/
theorem unconfigured_gateway_dispatch_witness :
    (runNotification gwUnconfigured ["a@x.com", "b@x.com"]).attempted
      = (["a@x.com", "b@x.com"] : List String).length ∧
    (runNotification gwUnconfigured ["a@x.com", "b@x.com"]).succeeded = 0 ∧
    (runNotification gwUnconfigured ["a@x.com", "b@x.com"]).gatewayCalls = [] ∧
    (runNotification gwUnconfigured ["a@x.com", "b@x.com"]).warnings
      = (["a@x.com", "b@x.com"] : List String).length ∧
    (runNotification gwUnconfigured ["a@x.com", "b@x.com"]).calls
      = ["a@x.com", "b@x.com"] :=
  unconfigured_gateway_dispatch gwUnconfigured ["a@x.com", "b@x.com"] (by decide)

/-- Claim C6: when the owning item cannot be found, `add_message` fails fast
with the "Item not found" outcome, the route surfaces it as HTTP 400, and
the notification flow — hence any gateway send — never runs. -/
theorem missing_item_fails_fast
    (g : Gateway) (adminEmails : List String) (lookup : String → Option Item)
    (item_id message user_name : String) (notify : Bool)
    (hmsg : pyStrip message ≠ "")
    (hlook : lookup item_id = none) :
    add_message g adminEmails lookup item_id message user_name notify =
      { success := false, info := "Item not found", notification := none } ∧
    create_message_route g adminEmails lookup item_id message user_name notify
      = RouteResult.httpError 400 "Item not found" := by
  have h1 : add_message g adminEmails lookup item_id message user_name notify =
      { success := false, info := "Item not found", notification := none } := by
    simp only [add_message, hlook, if_neg hmsg]
  exact ⟨h1, by simp [create_message_route, h1]⟩

/-- Witness for the claim C6 theorem: a lookup that finds no item. -/
theorem missing_item_fails_fast_witness :
    add_message gwAllOk ["ops@co.com"] emptyLookup "ghost" "hello" "Yuki" true =
      { success := false, info := "Item not found", notification := none } ∧
    create_message_route gwAllOk ["ops@co.com"] emptyLookup "ghost" "hello" "Yuki" true
      = RouteResult.httpError 400 "Item not found" :=
  missing_item_fails_fast gwAllOk ["ops@co.com"] emptyLookup "ghost" "hello" "Yuki" true
    (by decide) (by decide)

/-- Claim C10: after a successful progress update to `p` (with
`0 ≤ p ≤ 100`) through either route, the stored progress is `p` and the
stored status is "Completed" at `p = 100`, "Working" for `75 ≤ p ≤ 99`,
"Delayed" for `p < 25`, and unchanged for `25 ≤ p ≤ 74`. -/
theorem progress_update_sets_status
    (store : ItemStore) (iid : String) (p : Int) (it : ItemRec)
    (hit : store iid = some it) (h0 : 0 ≤ p) (h100 : p ≤ 100) :
    (update_item_progress_route store iid p).2 = true ∧
    (update_item_progress_route store iid p).1 iid =
      some { status := if p = 100 then "Completed" else if 75 ≤ p then "Working"
                       else if p < 25 then "Delayed" else it.status
             progress := p } ∧
    (public_update_progress_route store iid p).2 = 200 ∧
    (public_update_progress_route store iid p).1 iid =
      some { status := if p = 100 then "Completed" else if 75 ≤ p then "Working"
                       else if p < 25 then "Delayed" else it.status
             progress := p } := by
  have hnot : ¬ (p < 0 ∨ p > 100) := by omega
  have hdb : db_update_item_progress store iid p =
      ((fun k => if k = iid then some { it with progress := p } else store k), true) := by
    simp [db_update_item_progress, hit]
  have hauto : (auto_update_status
        (fun k => if k = iid then some { it with progress := p } else store k) iid p) iid =
      some { status := if p = 100 then "Completed" else if 75 ≤ p then "Working"
                       else if p < 25 then "Delayed" else it.status
             progress := p } := by
    by_cases h1 : p = 100
    · simp [auto_update_status, h1, db_update_item_status]
    · by_cases h2 : 75 ≤ p
      · simp [auto_update_status, h1, h2, db_update_item_status]
      · by_cases h3 : p < 25
        · simp [auto_update_status, h1, h2, h3, db_update_item_status]
        · simp [auto_update_status, h1, h2, h3]
  refine ⟨?_, ?_, ?_, ?_⟩
  · simp [update_item_progress_route, hdb]
  · simp only [update_item_progress_route, hdb, if_true]
    exact hauto
  · simp [public_update_progress_route, hnot, hdb]
  · simp only [public_update_progress_route, hnot, if_false, hdb, if_true]
    exact hauto

def store100 : ItemStore :=
  fun k => if k = "drill_c" then some { status := "Working", progress := 10 } else none

/-- Witness for the claim C10 theorem: progress 100 on a "Working" item. -/
theorem progress_update_sets_status_witness :
    (update_item_progress_route store100 "drill_c" 100).2 = true ∧
    (update_item_progress_route store100 "drill_c" 100).1 "drill_c" =
      some { status := if (100 : Int) = 100 then "Completed"
                       else if 75 ≤ (100 : Int) then "Working"
                       else if (100 : Int) < 25 then "Delayed"
                       else ({ status := "Working", progress := 10 } : ItemRec).status
             progress := 100 } ∧
    (public_update_progress_route store100 "drill_c" 100).2 = 200 ∧
    (public_update_progress_route store100 "drill_c" 100).1 "drill_c" =
      some { status := if (100 : Int) = 100 then "Completed"
                       else if 75 ≤ (100 : Int) then "Working"
                       else if (100 : Int) < 25 then "Delayed"
                       else ({ status := "Working", progress := 10 } : ItemRec).status
             progress := 100 } :=
  progress_update_sets_status store100 "drill_c" 100
    { status := "Working", progress := 10 } (by decide) (by decide) (by decide)

/-- Claim C7: broadcasting into a scope holding one dead and one live
connection (in either order) delivers exactly one push, to the live
connection with the broadcast envelope; afterwards the dead connection is
gone from the scope's set, the live one remains registered, and the other
scope is untouched — for the item scope and the admin scope alike. -/
theorem broadcast_prunes_dead_connection
    (live : Conn → Bool) (s : WSState) (iid : String) (d l : Conn) (ev : Event)
    (hd : live d = false) (hl : live l = true) :
    ((lookupConns s.active_connections iid = some [d, l] ∨
      lookupConns s.active_connections iid = some [l, d]) →
      (send_to_item live s ev iid).2 = [(l, ev)] ∧
      lookupConns (send_to_item live s ev iid).1.active_connections iid = some [l] ∧
      (send_to_item live s ev iid).1.admin_connections = s.admin_connections) ∧
    ((s.admin_connections = [d, l] ∨ s.admin_connections = [l, d]) →
      (send_to_admins live s ev).2 = [(l, ev)] ∧
      (send_to_admins live s ev).1.admin_connections = [l] ∧
      (send_to_admins live s ev).1.active_connections = s.active_connections) := by
  have hdl : d ≠ l := by
    intro he
    rw [he, hl] at hd
    simp at hd
  constructor
  · intro hcase
    rcases hcase with hlk | hlk
    · have hf1 : [d, l].filter live = [l] := by simp [hd, hl]
      have hf2 : [d, l].filter (fun c => !live c) = [d] := by simp [hd, hl]
      have hstep : send_to_item live s ev iid = (disconnect_from_item s d iid, [(l, ev)]) := by
        unfold send_to_item
        rw [hlk]
        simp [hf1, hf2]
      rw [hstep]
      have her : [d, l].erase d = [l] := by simp
      refine ⟨rfl, ?_, rfl⟩
      have := lookupConns_removeFromItem_stay s.active_connections iid d [d, l] hlk
        (by simp) (by simp [her])
      rw [her] at this
      exact this
    · have hf1 : [l, d].filter live = [l] := by simp [hd, hl]
      have hf2 : [l, d].filter (fun c => !live c) = [d] := by simp [hd, hl]
      have hstep : send_to_item live s ev iid = (disconnect_from_item s d iid, [(l, ev)]) := by
        unfold send_to_item
        rw [hlk]
        simp [hf1, hf2]
      rw [hstep]
      have her : [l, d].erase d = [l] := by simp [List.erase_cons, Ne.symm hdl]
      refine ⟨rfl, ?_, rfl⟩
      have := lookupConns_removeFromItem_stay s.active_connections iid d [l, d] hlk
        (by simp) (by simp [her])
      rw [her] at this
      exact this
  · intro hcase
    rcases hcase with hadm | hadm
    · have hstep : send_to_admins live s ev = (disconnect_admin s d, [(l, ev)]) := by
        unfold send_to_admins
        rw [hadm]
        simp [hd, hl]
      rw [hstep]
      refine ⟨rfl, ?_, rfl⟩
      simp [disconnect_admin, hadm]
    · have hstep : send_to_admins live s ev = (disconnect_admin s d, [(l, ev)]) := by
        unfold send_to_admins
        rw [hadm]
        simp [hd, hl]
      rw [hstep]
      refine ⟨rfl, ?_, rfl⟩
      simp [disconnect_admin, hadm, List.erase_cons, Ne.symm hdl]

def deadLiveState : WSState :=
  { active_connections := [("drill_c", [1, 2])], admin_connections := [1, 2] }

def liveOracle : Conn → Bool := fun c => c == 2

def statusEnvelope : Event :=
  { type := "status_update", data := EventData.statusChange "drill_c" "Completed" "t0" }

/-- Witness for the claim C7 theorem: connection 1 dead, connection 2 live,
registered in both scopes. -/
theorem broadcast_prunes_dead_connection_witness :
    ((lookupConns deadLiveState.active_connections "drill_c" = some [1, 2] ∨
      lookupConns deadLiveState.active_connections "drill_c" = some [2, 1]) →
      (send_to_item liveOracle deadLiveState statusEnvelope "drill_c").2
        = [(2, statusEnvelope)] ∧
      lookupConns (send_to_item liveOracle deadLiveState statusEnvelope
          "drill_c").1.active_connections "drill_c" = some [2] ∧
      (send_to_item liveOracle deadLiveState statusEnvelope "drill_c").1.admin_connections
        = deadLiveState.admin_connections) ∧
    ((deadLiveState.admin_connections = [1, 2] ∨ deadLiveState.admin_connections = [2, 1]) →
      (send_to_admins liveOracle deadLiveState statusEnvelope).2 = [(2, statusEnvelope)] ∧
      (send_to_admins liveOracle deadLiveState statusEnvelope).1.admin_connections = [2] ∧
      (send_to_admins liveOracle deadLiveState statusEnvelope).1.active_connections
        = deadLiveState.active_connections) :=
  broadcast_prunes_dead_connection liveOracle deadLiveState "drill_c" 1 2 statusEnvelope
    (by decide) (by decide)

/-- Claim C8: each broadcast builds one envelope (`{type, data}` with type
`"new_message"` or `"status_update"`) and pushes that identical envelope to
every connection registered under the event's item identifier and to every
admin-scope connection, with no further per-recipient filtering; with all
connections live, every one of them receives it and none is removed. -/
theorem broadcast_identical_envelope_to_both_scopes
    (live : Conn → Bool) (s : WSState) (d : MsgData) (iid iid2 st now : String)
    (hadmin : ∀ c ∈ s.admin_connections, live c = true)
    (hitem : ∀ c ∈ (lookupConns s.active_connections iid).getD [], live c = true)
    (hitem2 : ∀ c ∈ (lookupConns s.active_connections iid2).getD [], live c = true)
    (hid : d.item_id = some iid2) (hne : iid2 ≠ "") :
    broadcast_status_update live s iid st now =
      (s, ((lookupConns s.active_connections iid).getD []).map
            (fun c => (c, ({ type := "status_update"
                             data := EventData.statusChange iid st now } : Event)))
          ++ s.admin_connections.map
            (fun c => (c, ({ type := "status_update"
                             data := EventData.statusChange iid st now } : Event)))) ∧
    broadcast_new_message live s d =
      (s, ((lookupConns s.active_connections iid2).getD []).map
            (fun c => (c, ({ type := "new_message", data := EventData.message d } : Event)))
          ++ s.admin_connections.map
            (fun c => (c, ({ type := "new_message", data := EventData.message d } : Event)))) := by
  constructor
  · simp only [broadcast_status_update]
    rw [send_to_item_all_live live s _ iid hitem]
    simp only
    rw [send_to_admins_all_live live s _ hadmin]
  · simp only [broadcast_new_message, hid]
    rw [if_pos hne]
    rw [send_to_item_all_live live s _ iid2 hitem2]
    simp only
    rw [send_to_admins_all_live live s _ hadmin]

def threeAdminState : WSState := { active_connections := [], admin_connections := [1, 2, 3] }

def allLive : Conn → Bool := fun _ => true

def drillMsgData : MsgData := { item_id := some "drill_c", message := "hi", user_name := "Yuki" }

/-- Witness for the claim C8 theorem: three live admin connections; both
broadcasts deliver the identical envelope to all three and remove none. -/
theorem broadcast_identical_envelope_to_both_scopes_witness :
    broadcast_status_update allLive threeAdminState "drill_c" "Completed" "t0" =
      (threeAdminState,
        ((lookupConns threeAdminState.active_connections "drill_c").getD []).map
            (fun c => (c, ({ type := "status_update"
                             data := EventData.statusChange "drill_c" "Completed" "t0" }
                           : Event)))
          ++ threeAdminState.admin_connections.map
            (fun c => (c, ({ type := "status_update"
                             data := EventData.statusChange "drill_c" "Completed" "t0" }
                           : Event)))) ∧
    broadcast_new_message allLive threeAdminState drillMsgData =
      (threeAdminState,
        ((lookupConns threeAdminState.active_connections "drill_c").getD []).map
            (fun c => (c, ({ type := "new_message"
                             data := EventData.message drillMsgData } : Event)))
          ++ threeAdminState.admin_connections.map
            (fun c => (c, ({ type := "new_message"
                             data := EventData.message drillMsgData } : Event)))) :=
  broadcast_identical_envelope_to_both_scopes allLive threeAdminState drillMsgData
    "drill_c" "drill_c" "Completed" "t0"
    (by decide) (by decide) (by decide) (by decide) (by decide)

theorem erase_eq_nil_imp_singleton (cs : List Conn) (ws : Conn) (hmem : ws ∈ cs)
    (hnil : cs.erase ws = []) : cs = [ws] := by
  have hlen := List.length_erase_of_mem hmem
  rw [hnil] at hlen
  have hpos : 0 < cs.length := List.length_pos.mpr (List.ne_nil_of_mem hmem)
  have hone : cs.length = 1 := by
    simp at hlen
    omega
  obtain ⟨a, ha⟩ := List.length_eq_one.mp hone
  subst ha
  simp at hmem
  rw [hmem]

theorem not_mem_erase_of_count_le_one (cs : List Conn) (ws : Conn)
    (h : cs.count ws ≤ 1) : ws ∉ cs.erase ws := by
  have h2 : (cs.erase ws).count ws = cs.count ws - 1 := List.count_erase_self ws cs
  have h3 : (cs.erase ws).count ws = 0 := by omega
  exact List.count_eq_zero.mp h3

/-- Claim C9: unregistering a connection that is not in the given scope —
including a second unregister of the same connection — is a no-op, not an
error; it leaves every other connection of that scope and every other scope
unchanged; and when an unregister empties an item's connection set, the
item's entry is dropped from the registry map entirely. -/
theorem unregister_noop_and_gc
    (s : WSState) (ws : Conn) (iid : String)
    (hkeys : (s.active_connections.map Prod.fst).Nodup) :
    (ws ∉ (lookupConns s.active_connections iid).getD [] →
      disconnect_from_item s ws iid = s) ∧
    (ws ∉ s.admin_connections → disconnect_admin s ws = s) ∧
    (((lookupConns s.active_connections iid).getD []).count ws ≤ 1 →
      disconnect_from_item (disconnect_from_item s ws iid) ws iid
        = disconnect_from_item s ws iid) ∧
    (s.admin_connections.count ws ≤ 1 →
      disconnect_admin (disconnect_admin s ws) ws = disconnect_admin s ws) ∧
    (∀ iid', iid' ≠ iid →
      lookupConns (disconnect_from_item s ws iid).active_connections iid'
        = lookupConns s.active_connections iid') ∧
    (disconnect_from_item s ws iid).admin_connections = s.admin_connections ∧
    (∀ ws', ws' ≠ ws →
      (ws' ∈ (lookupConns (disconnect_from_item s ws iid).active_connections iid).getD []
        ↔ ws' ∈ (lookupConns s.active_connections iid).getD [])) ∧
    (∀ ws', ws' ≠ ws →
      (ws' ∈ (disconnect_admin s ws).admin_connections ↔ ws' ∈ s.admin_connections)) ∧
    (lookupConns s.active_connections iid = some [ws] →
      lookupConns (disconnect_from_item s ws iid).active_connections iid = none) := by
  have noopItem : ∀ t : WSState, ws ∉ (lookupConns t.active_connections iid).getD [] →
      disconnect_from_item t ws iid = t := by
    intro t ht
    unfold disconnect_from_item
    rw [removeFromItem_not_mem _ _ _ ht]
  have noopAdmin : ∀ t : WSState, ws ∉ t.admin_connections → disconnect_admin t ws = t := by
    intro t ht
    unfold disconnect_admin
    rw [if_neg ht]
  refine ⟨noopItem s, noopAdmin s, ?_, ?_, ?_, rfl, ?_, ?_, ?_⟩
  · -- double item unregister
    intro hcount
    apply noopItem
    cases hl : lookupConns s.active_connections iid with
    | none =>
      have hno : ws ∉ (lookupConns s.active_connections iid).getD [] := by
        rw [hl]
        simp
      rw [noopItem s hno, hl]
      simp
    | some cs =>
      rw [hl] at hcount
      simp only [Option.getD_some] at hcount
      by_cases hmem : ws ∈ cs
      · by_cases hnil : cs.erase ws = []
        · have hsing : cs = [ws] := erase_eq_nil_imp_singleton cs ws hmem hnil
          subst hsing
          have hdrop := lookupConns_removeFromItem_drop s.active_connections iid ws hkeys hl
          unfold disconnect_from_item
          rw [hdrop]
          simp
        · have hstay := lookupConns_removeFromItem_stay s.active_connections iid ws cs
            hl hmem hnil
          unfold disconnect_from_item
          rw [hstay]
          simp only [Option.getD_some]
          exact not_mem_erase_of_count_le_one cs ws hcount
      · have hno : ws ∉ (lookupConns s.active_connections iid).getD [] := by
          rw [hl]
          simpa using hmem
        rw [noopItem s hno, hl]
        simpa using hmem
  · -- double admin unregister
    intro hcount
    by_cases hmem : ws ∈ s.admin_connections
    · apply noopAdmin
      simp only [disconnect_admin, if_pos hmem]
      exact not_mem_erase_of_count_le_one s.admin_connections ws hcount
    · rw [noopAdmin s hmem, noopAdmin s hmem]
  · -- other scopes untouched
    intro iid' h
    exact lookupConns_removeFromItem_other s.active_connections iid ws iid' h
  · -- other connections in the same item scope untouched
    intro ws' hws'
    cases hl : lookupConns s.active_connections iid with
    | none =>
      have hno : ws ∉ (lookupConns s.active_connections iid).getD [] := by
        rw [hl]
        simp
      rw [noopItem s hno, hl]
    | some cs =>
      by_cases hmem : ws ∈ cs
      · by_cases hnil : cs.erase ws = []
        · have hsing : cs = [ws] := erase_eq_nil_imp_singleton cs ws hmem hnil
          subst hsing
          have hdrop := lookupConns_removeFromItem_drop s.active_connections iid ws hkeys hl
          unfold disconnect_from_item
          rw [hdrop]
          simp [hws']
        · have hstay := lookupConns_removeFromItem_stay s.active_connections iid ws cs
            hl hmem hnil
          unfold disconnect_from_item
          rw [hstay]
          simp only [Option.getD_some]
          exact List.mem_erase_of_ne hws'
      · have hno : ws ∉ (lookupConns s.active_connections iid).getD [] := by
          rw [hl]
          simpa using hmem
        rw [noopItem s hno, hl]
  · -- other admin connections untouched
    intro ws' hws'
    by_cases hmem : ws ∈ s.admin_connections
    · simp only [disconnect_admin, if_pos hmem]
      exact List.mem_erase_of_ne hws'
    · rw [noopAdmin s hmem]
  · -- emptied item entry is dropped
    intro hl
    exact lookupConns_removeFromItem_drop s.active_connections iid ws hkeys hl

def gcState : WSState :=
  { active_connections := [("drill_c", [7]), ("saw_b", [8, 9])], admin_connections := [8] }

/-- Witness for the claim C9 theorem: a registry with two item scopes and
one admin connection, unregistering connection 7 from item `drill_c`. -/
theorem unregister_noop_and_gc_witness :
    (7 ∉ (lookupConns gcState.active_connections "drill_c").getD [] →
      disconnect_from_item gcState 7 "drill_c" = gcState) ∧
    (7 ∉ gcState.admin_connections → disconnect_admin gcState 7 = gcState) ∧
    (((lookupConns gcState.active_connections "drill_c").getD []).count 7 ≤ 1 →
      disconnect_from_item (disconnect_from_item gcState 7 "drill_c") 7 "drill_c"
        = disconnect_from_item gcState 7 "drill_c") ∧
    (gcState.admin_connections.count 7 ≤ 1 →
      disconnect_admin (disconnect_admin gcState 7) 7 = disconnect_admin gcState 7) ∧
    (∀ iid', iid' ≠ "drill_c" →
      lookupConns (disconnect_from_item gcState 7 "drill_c").active_connections iid'
        = lookupConns gcState.active_connections iid') ∧
    (disconnect_from_item gcState 7 "drill_c").admin_connections
      = gcState.admin_connections ∧
    (∀ ws', ws' ≠ 7 →
      (ws' ∈ (lookupConns (disconnect_from_item gcState 7
            "drill_c").active_connections "drill_c").getD []
        ↔ ws' ∈ (lookupConns gcState.active_connections "drill_c").getD [])) ∧
    (∀ ws', ws' ≠ 7 →
      (ws' ∈ (disconnect_admin gcState 7).admin_connections
        ↔ ws' ∈ gcState.admin_connections)) ∧
    (lookupConns gcState.active_connections "drill_c" = some [7] →
      lookupConns (disconnect_from_item gcState 7 "drill_c").active_connections "drill_c"
        = none) :=
  unregister_noop_and_gc gcState 7 "drill_c" (by decide)
